import Mathlib

/-!
Verification of the AutoGitUpdate update orchestrator (src/index.js).

The JavaScript module is shallowly embedded: pure logic (version comparison,
error classification, stage sequencing, the readiness gate) is translated into
Lean functions; the external collaborators that the spec places out of scope
(the git clone, the recursive file copy, the npm child process, the https
transport) appear as explicit inputs describing their observed result, and the
filesystem is an association list from paths to file contents.
-/

namespace AutoGitUpdate

/-- A directory, modelled as an association list from relative paths to file
contents.  An entry is looked up by its first occurrence. -/
abbrev Dir := List (String × String)

/-- Path lookup in a directory. -/
def lookupPath : Dir → String → Option String
  | [], _ => none
  | (q, c) :: rest, p => if q = p then some c else lookupPath rest p

/-- Whether the directory contains the given path. -/
def hasPath (d : Dir) (p : String) : Bool :=
  (lookupPath d p).isSome

/-- `fs.unlinkSync`: remove a path from a directory. -/
def removePath : Dir → String → Dir
  | [], _ => []
  | e :: rest, p => if e.1 = p then removePath rest p else e :: removePath rest p

/-- `fs.copy src dst`: recursive copy, overwriting matching paths in `dst` and
keeping `dst` files that have no counterpart in `src`. -/
def copyOver (src dst : Dir) : Dir :=
  src ++ dst.filter (fun e => !hasPath src e.1)

theorem lookupPath_append (d₁ d₂ : Dir) (p : String) :
    lookupPath (d₁ ++ d₂) p =
      match lookupPath d₁ p with
      | some c => some c
      | none => lookupPath d₂ p := by
  induction d₁ with
  | nil => simp [lookupPath]
  | cons e rest ih =>
    by_cases h : e.1 = p <;> simp [lookupPath, h, ih]

theorem lookupPath_filter_notIn (src d : Dir) (p : String) :
    lookupPath (d.filter (fun e => !hasPath src e.1)) p =
      if hasPath src p then none else lookupPath d p := by
  induction d with
  | nil => simp [lookupPath]
  | cons e rest ih =>
    by_cases h : e.1 = p
    · subst h
      by_cases hs : hasPath src e.1 = true <;>
        simp [List.filter, lookupPath, hs, ih]
    · by_cases hs : hasPath src e.1 = true <;>
        simp [List.filter, lookupPath, hs, ih, h]

/-- The content seen at `p` after copying `src` over `dst`: the `src` version
when present, otherwise the pre-existing `dst` version. -/
theorem lookupPath_copyOver (src dst : Dir) (p : String) :
    lookupPath (copyOver src dst) p =
      match lookupPath src p with
      | some c => some c
      | none => lookupPath dst p := by
  unfold copyOver
  rw [lookupPath_append, lookupPath_filter_notIn]
  cases h : lookupPath src p with
  | some c => simp [hasPath, h]
  | none => simp [hasPath, h]

theorem lookupPath_removePath (d : Dir) (p q : String) :
    lookupPath (removePath d p) q =
      if q = p then none else lookupPath d q := by
  induction d with
  | nil => simp [removePath, lookupPath]
  | cons e rest ih =>
    by_cases h : e.1 = p
    · by_cases hq : q = p
      · subst hq
        simp [removePath, lookupPath, h, ih]
      · simp [removePath, lookupPath, h, hq, ih, Ne.symm hq]
    · by_cases he : e.1 = q
      · have hqp : ¬q = p := fun hh => h (he.trans hh)
        simp [removePath, lookupPath, h, he, hqp]
      · simp [removePath, lookupPath, h, he, ih]

/-! ### Version comparison (`compareVersions`, src/index.js lines 97-111) -/

/-- The object returned by `compareVersions`.  `remoteVersion` is an `Option`
because the JS object literal in the up-to-date branch omits the field. -/
structure VersionResults where
  upToDate : Bool
  currentVersion : String
  remoteVersion : Option String
  deriving Repr, DecidableEq

/-- `compareVersions` (src/index.js lines 97-111).  `localRead` is the outcome
of `readAppVersion()` and `remoteRead` the outcome of `readRemoteVersion()`;
any throw from either is caught by the surrounding `try` and turned into the
`"Error"` sentinel result. -/
def compareVersions (localRead : Except String String)
    (remoteRead : Except String String) : VersionResults :=
  match localRead, remoteRead with
  | .ok currentVersion, .ok remoteVersion =>
    if currentVersion = remoteVersion then
      { upToDate := true, currentVersion, remoteVersion := none }
    else
      { upToDate := false, currentVersion, remoteVersion := some remoteVersion }
  | .error _, _ =>
    { upToDate := false, currentVersion := "Error", remoteVersion := some "Error" }
  | _, .error _ =>
    { upToDate := false, currentVersion := "Error", remoteVersion := some "Error" }

/-! ### Https transport (`promiseHttpsRequest`, src/index.js lines 337-354) -/

/-- What the remote end does with one request: either a response with a status
code and body, or a transport-level error on the request object. -/
inductive HttpResponse where
  | status (code : Nat) (body : String)
  | transportError (msg : String)
  deriving Repr, DecidableEq

/-- The value a failed `promiseHttpsRequest` rejects with: the numeric status
code (`reject(res.statusCode)`) or the transport error (`req.on('error',
reject)`). -/
inductive HttpFailure where
  | badStatus (code : Nat)
  | transport (msg : String)
  deriving Repr, DecidableEq

/-- `promiseHttpsRequest` (src/index.js lines 337-354): resolves with the body
exactly on status 200, rejects with the status code otherwise, and rejects
with the error on a transport failure. -/
def promiseHttpsRequest : HttpResponse → Except HttpFailure String
  | .status 200 body => .ok body
  | .status c _ => .error (.badStatus c)
  | .transportError m => .error (.transport m)

/-! ### Remote version lookup (`readRemoteVersion`, src/index.js lines 255-272) -/

/-- A throw inside the `try` block of `readRemoteVersion`: the rejection of
`promiseHttpsRequest`, or `JSON.parse` throwing on the body. -/
inductive TryError where
  | httpFailure (f : HttpFailure)
  | jsonParseError
  deriving Repr, DecidableEq

/-- The error `readRemoteVersion` rethrows: the "requires a token or does not
exist" error (the claim calls it `NotFoundOrPrivate`) or the original error
passed through (`RequestError`). -/
inductive RemoteVersionError where
  | notFoundOrPrivate
  | requestError (e : TryError)
  deriving Repr, DecidableEq

/-- The `catch` block of `readRemoteVersion` (src/index.js lines 268-271):
`if (err = 404) throw new Error('This repository requires a token or does not
exist. ...'); throw err;`.  The condition is an assignment, not a comparison:
it stores `404` into `err` and tests the assigned value, which is truthy, so
the not-found branch is taken for every caught error and `throw err` is
unreachable. -/
def classifyRemoteFailure (e : TryError) : RemoteVersionError :=
  let err : Nat := 404
  if err ≠ 0 then RemoteVersionError.notFoundOrPrivate
  else RemoteVersionError.requestError e

/-- Modelled from the spec: the classification §4.1 describes for
`readRemoteVersion` failures — `NotFoundOrPrivate` exactly on a not-found
(404) response, `RequestError` for every other transport-level failure. -/
def classifyRemoteFailureSpec (e : TryError) : RemoteVersionError :=
  match e with
  | .httpFailure (.badStatus 404) => RemoteVersionError.notFoundOrPrivate
  | _ => RemoteVersionError.requestError e

/-- `readRemoteVersion` (src/index.js lines 255-272).  `parseVersion` stands
for `JSON.parse(body).version`; `none` means `JSON.parse` threw. -/
def readRemoteVersion (resp : HttpResponse) (parseVersion : String → Option String) :
    Except RemoteVersionError String :=
  match promiseHttpsRequest resp with
  | .error f => .error (classifyRemoteFailure (.httpFailure f))
  | .ok body =>
    match parseVersion body with
    | some v => .ok v
    | none => .error (classifyRemoteFailure .jsonParseError)

/-! ### Dependency install (`installDependencies`, src/index.js lines 189-213) -/

/-- JS `String.prototype.toLowerCase` on one character (ASCII case folding,
which covers npm diagnostics). -/
def lowerChar (c : Char) : Char :=
  if 'A' ≤ c ∧ c ≤ 'Z' then Char.ofNat (c.toNat + 32) else c

/-- `data.toLowerCase()` as a character list. -/
def lowerStr (s : String) : List Char :=
  s.toList.map lowerChar

/-- JS `String.prototype.includes`: contiguous-substring test. -/
def containsSub (needle : List Char) : List Char → Bool
  | [] => needle.isEmpty
  | c :: rest => needle.isPrefixOf (c :: rest) || containsSub needle rest

/-- The stderr handler's test in `installDependencies` (src/index.js line 202):
`data.toLowerCase().includes('error')`.  A chunk passing this test rejects the
stage; any other chunk is only logged as a warning. -/
def npmChunkIsError (data : String) : Bool :=
  containsSub "error".toList (lowerStr data)

/-- `installDependencies` (src/index.js lines 189-213), as a function of the
stderr chunks the npm child process emits before its stdout ends: the promise
rejects at the first chunk containing "error" case-insensitively, and resolves
otherwise.  `some chunk` is the rejecting chunk, `none` is resolution. -/
def installDependencies (stderrChunks : List String) : Option String :=
  stderrChunks.find? npmChunkIsError

/-! ### The update pipeline (`forceUpdate`, src/index.js lines 119-135) -/

/-- The parts of the configuration object the pipeline reads. -/
structure UpdateConfig where
  ignoreFiles : Option (List String)
  executeOnComplete : Option String
  exitOnComplete : Bool

/-- The filesystem locations one run of the pipeline reads or writes: the live
application directory (`appRootPath.path`), the backup workspace
(`tempLocation/AutoGitUpdate/backup/`) and the clone workspace
(`tempLocation/AutoGitUpdate/repo/`). -/
structure FsState where
  appDir : Dir
  backupDir : Dir
  cloneDir : Dir
  deriving Repr, DecidableEq

/-- The behaviour of the external collaborators during one run:
the result of `git clone` (the cloned tree on success, the non-null result
value on failure), whether the recursive copy into the backup workspace
fails and the partial content it leaves there, and the stderr chunks of the
`npm install` child process. -/
structure PipelineEnv where
  cloneResult : Except String Dir
  backupCopyFails : Bool
  backupPartial : Dir
  npmStderr : List String

/-- The purge loop of `installUpdate` (src/index.js lines 221-228):
`config.ignoreFiles.forEach(file => fs.unlinkSync(file))` over the clone
workspace.  `unlinkSync` throws on a missing path, aborting the loop after the
earlier removals already happened. -/
def purge : List String → Dir → Dir × Option String
  | [], d => (d, none)
  | f :: rest, d =>
    if hasPath d f then purge rest (removePath d f)
    else (d, some ("ENOENT: no such file " ++ f))

/-- The outcome of one `forceUpdate()` run: the returned boolean, whether
`process.exit(1)` was invoked, and the final filesystem state. -/
structure RunResult where
  success : Bool
  exited : Bool
  fs : FsState
  deriving Repr, DecidableEq

/-- `forceUpdate` (src/index.js lines 119-135): runs `downloadUpdate`,
`backupApp`, `installUpdate`, `installDependencies` in that order inside one
`try`; the first throw is caught and turns into `return false`.
Stage effects, in source order:
* `downloadUpdate` (lines 168-184): `ensureDir` + `emptyDir` on the clone
  workspace, then clone into it — a clone failure rejects after the workspace
  was already emptied;
* `backupApp` (lines 156-162): `ensureDir` on the backup workspace, then
  `fs.copy(appRootPath.path, destination)` — on failure the backup workspace
  holds whatever partial content the copy left;
* `installUpdate` (lines 219-240): purge the ignore files from the clone
  workspace, then `fs.copy` the clone workspace over the application
  directory;
* `installDependencies` (lines 189-213): reject on the first stderr chunk
  containing "error" case-insensitively;
* post-actions (lines 127-128): optional completion command (fire-and-forget,
  no modelled effect) and optional `process.exit(1)`. -/
def forceUpdate (cfg : UpdateConfig) (env : PipelineEnv) (s : FsState) : RunResult :=
  let s₁ : FsState := { s with cloneDir := [] }
  match env.cloneResult with
  | .error _ => ⟨false, false, s₁⟩
  | .ok cloned =>
    let s₂ : FsState := { s₁ with cloneDir := cloned }
    if env.backupCopyFails then
      ⟨false, false, { s₂ with backupDir := env.backupPartial }⟩
    else
      let s₃ : FsState := { s₂ with backupDir := copyOver s₂.appDir s₂.backupDir }
      let purged := match cfg.ignoreFiles with
        | some files => purge files s₃.cloneDir
        | none => (s₃.cloneDir, none)
      let s₄ : FsState := { s₃ with cloneDir := purged.1 }
      match purged.2 with
      | some _ => ⟨false, false, s₄⟩
      | none =>
        let s₅ : FsState := { s₄ with appDir := copyOver s₄.cloneDir s₄.appDir }
        match installDependencies env.npmStderr with
        | some _ => ⟨false, false, s₅⟩
        | none => ⟨true, cfg.exitOnComplete, s₅⟩

/-! ### Readiness gate and release-tag binding
(src/index.js lines 43, 62-65, 81-86, 279-300) -/

/-- The module-level mutable state the gate logic uses: `config.branch` and
the `ready` flag. -/
structure ModuleState where
  branch : String
  ready : Bool
  deriving Repr, DecidableEq

/-- What the GitHub "latest release" lookup in `setBranchToReleaseTag` comes
back with: the repository URL does not contain "github" (the function throws
before any request), the request or the body parse fails, or a body with a
`tag_name` is obtained. -/
inductive ReleaseResult where
  | nonGitHubHost
  | httpFailure (e : TryError)
  | ok (tagName : String)
  deriving Repr, DecidableEq

/-- Whether the release lookup failed. -/
def ReleaseResult.failed : ReleaseResult → Bool
  | .ok _ => false
  | _ => true

/-- `setBranchToReleaseTag` (src/index.js lines 279-300): on success it writes
the release tag into `config.branch` and sets `ready = true`; on any failure
it throws without touching either, so the state is returned unchanged together
with the thrown message. -/
def setBranchToReleaseTag (res : ReleaseResult) (s : ModuleState) :
    ModuleState × Option String :=
  match res with
  | .nonGitHubHost =>
    (s, some "fromReleases is enabled but this does not seem to be a GitHub repo.")
  | .httpFailure _ =>
    (s, some "This repository requires a token or does not exist.")
  | .ok tag => ({ branch := tag, ready := true }, none)

/-- The module state the polling loop of `autoUpdate` observes at iteration
`i`, when the asynchronous `setBranchToReleaseTag` task delivers its result
just before iteration `k` (and before every later iteration it is already
delivered). -/
def stateAt (init : ModuleState) (res : ReleaseResult) (k i : Nat) : ModuleState :=
  if k ≤ i then (setBranchToReleaseTag res init).1 else init

/-- The loop of `autoUpdate` (src/index.js line 82): `while (!ready) await
sleep(1000)`, then the comparison begins against `config.branch`.  The result
is the branch the version comparison (and the subsequent clone) uses, or
`none` when the loop is still polling after `fuel` iterations — the comparison
has not begun. -/
def autoUpdateLoop (init : ModuleState) (res : ReleaseResult) (k : Nat) :
    Nat → Nat → Option String
  | 0, _ => none
  | fuel + 1, i =>
    let s := stateAt init res k i
    if s.ready then some s.branch else autoUpdateLoop init res k fuel (i + 1)

/-! ### Constructor (src/index.js lines 50-76) -/

/-- The `Config` object handed to the constructor; JS properties that may be
`undefined` are `Option`s.  `logConfig` records only whether the property is
truthy, since its contents only reconfigure the logger. -/
structure Config where
  repository : Option String
  branch : Option String
  fromReleases : Bool
  token : Option String
  logConfig : Bool
  tempLocation : Option String
  ignoreFiles : Option (List String)
  executeOnComplete : Option String
  exitOnComplete : Bool

/-- The observable network/filesystem activity the constructor can start:
the GitHub release lookup spawned through `setBranchToReleaseTag`, and the
`fs.readFileSync` of the embedding application's `package.json`. -/
inductive Effect where
  | releaseTagRequest
  | readPackageJson
  deriving Repr, DecidableEq

/-- The constructor (src/index.js lines 50-76), in source order: reject a
missing config object, a missing `repository`, then default `branch` to
`"master"`, reject a missing `tempLocation`; then store the config, and when
`fromReleases` is set clear the `ready` flag and spawn the release-tag task;
finally read the embedding application's `package.json` and reject when it is
this module itself.  Returns the thrown message or the resulting module state,
together with the list of network/filesystem effects performed. -/
def construct (cfg : Option Config) (appPackageName : String) :
    Except String ModuleState × List Effect :=
  match cfg with
  | none => (.error "You must pass a config object to AutoGitUpdate.", [])
  | some c =>
    match c.repository with
    | none => (.error "You must include a repository link.", [])
    | some _ =>
      let branch := c.branch.getD "master"
      match c.tempLocation with
      | none => (.error "You must define a temp location for cloning the repository", [])
      | some _ =>
        let ready := !c.fromReleases
        let effs := if c.fromReleases then [Effect.releaseTagRequest] else []
        if appPackageName = "auto-git-update" then
          (.error "Auto Git Update is not being ran as a dependency & testing is not enabled.",
            effs ++ [Effect.readPackageJson])
        else
          (.ok ⟨branch, ready⟩, effs ++ [Effect.readPackageJson])

/-! ## Claims -/

/-- C2: for every failure of the local or remote version read,
`compareVersions()` returns `{upToDate: false, currentVersion: "Error",
remoteVersion: "Error"}`.  The embedded `compareVersions` is a total function
of the two read outcomes — the surrounding `try`/`catch` converts every throw
into this sentinel object, so no error crosses the boundary to the caller. -/
theorem compareVersions_error_sentinel (localRead remoteRead : Except String String)
    (h : localRead.isOk = false ∨ remoteRead.isOk = false) :
    compareVersions localRead remoteRead =
      { upToDate := false, currentVersion := "Error", remoteVersion := some "Error" } := by
  cases localRead <;> cases remoteRead <;>
    simp [compareVersions, Except.isOk, Except.toBool] at h ⊢

/-- Witness for C2 at a concrete failing remote read. -/
theorem compareVersions_error_sentinel_witness :
    compareVersions (.ok "1.2.3") (.error "connect ECONNREFUSED") =
      { upToDate := false, currentVersion := "Error", remoteVersion := some "Error" } :=
  compareVersions_error_sentinel (.ok "1.2.3") (.error "connect ECONNREFUSED")
    (Or.inr rfl)

/-- C3 (code bug): the catch block of `readRemoteVersion` writes `if (err =
404)` — an assignment, not a comparison — so every failing response is
classified as the "requires a token or does not exist" (`NotFoundOrPrivate`)
error; the `RequestError` path (`throw err`) is unreachable.  At the failing
input, a 500 response: the code produces `notFoundOrPrivate`, while the
spec-modelled classification produces a distinct `requestError`. -/
theorem classifyRemoteFailure_ignores_status :
    classifyRemoteFailure (.httpFailure (.badStatus 500)) =
      RemoteVersionError.notFoundOrPrivate ∧
    classifyRemoteFailureSpec (.httpFailure (.badStatus 500)) =
      RemoteVersionError.requestError (.httpFailure (.badStatus 500)) ∧
    readRemoteVersion (.status 500 "Internal Server Error") (fun _ => none) =
      .error RemoteVersionError.notFoundOrPrivate ∧
    readRemoteVersion (.transportError "ENOTFOUND") (fun _ => none) =
      .error RemoteVersionError.notFoundOrPrivate :=
  ⟨rfl, rfl, rfl, rfl⟩

/-- C4: `compareVersions()` reports `upToDate = true` exactly when the two
version strings are byte-for-byte equal (the JS `==` on two strings), and for
distinct strings it returns both strings verbatim with `upToDate = false`. -/
theorem compareVersions_byte_equality (cur rem : String) :
    ((compareVersions (.ok cur) (.ok rem)).upToDate = true ↔ cur = rem) ∧
    (cur ≠ rem →
      compareVersions (.ok cur) (.ok rem) =
        { upToDate := false, currentVersion := cur, remoteVersion := some rem }) := by
  constructor
  · by_cases h : cur = rem <;> simp [compareVersions, h]
  · intro h
    simp [compareVersions, h]

/-- Witness for C4 at concrete distinct versions. -/
theorem compareVersions_byte_equality_witness :
    compareVersions (.ok "1.0.0") (.ok "2.0.0") =
      { upToDate := false, currentVersion := "1.0.0", remoteVersion := some "2.0.0" } :=
  (compareVersions_byte_equality "1.0.0" "2.0.0").2 (by decide)

/-- C9: in the equal-versions case the object returned by `compareVersions()`
is `{upToDate: true, currentVersion}` — the `remoteVersion` field is absent
(`none`), unlike the distinct-version and failure cases, where it is
present. -/
theorem compareVersions_equal_omits_remote (v w e : String) :
    compareVersions (.ok v) (.ok v) =
      { upToDate := true, currentVersion := v, remoteVersion := none } ∧
    (v ≠ w → (compareVersions (.ok v) (.ok w)).remoteVersion = some w) ∧
    (compareVersions (.ok v) (.error e)).remoteVersion = some "Error" := by
  refine ⟨by simp [compareVersions], fun h => by simp [compareVersions, h], rfl⟩

/-- Witness for C9 at concrete versions. -/
theorem compareVersions_equal_omits_remote_witness :
    compareVersions (.ok "3.1.4") (.ok "3.1.4") =
      { upToDate := true, currentVersion := "3.1.4", remoteVersion := none } ∧
    (compareVersions (.ok "3.1.4") (.ok "9.9.9")).remoteVersion = some "9.9.9" :=
  ⟨(compareVersions_equal_omits_remote "3.1.4" "9.9.9" "x").1,
   (compareVersions_equal_omits_remote "3.1.4" "9.9.9" "x").2.1 (by decide)⟩

/-- A `forceUpdate` run only returns `true` when the dependency-install stage
resolved: every earlier failure already short-circuits to `false`. -/
theorem forceUpdate_success_npm (cfg : UpdateConfig) (env : PipelineEnv) (s : FsState)
    (h : (forceUpdate cfg env s).success = true) :
    installDependencies env.npmStderr = none := by
  rcases hcl : env.cloneResult with e | cloned
  · simp [forceUpdate, hcl] at h
  · by_cases hb : env.backupCopyFails
    · simp [forceUpdate, hcl, hb] at h
    · rcases hig : cfg.ignoreFiles with _ | files
      · simp only [forceUpdate, hcl, hb, hig] at h
        cases hn : installDependencies env.npmStderr <;> simp [hn] at h ⊢
      · simp only [forceUpdate, hcl, hb, hig] at h
        cases hp : (purge files cloned).2 with
        | some e => simp [hp] at h
        | none =>
          simp only [hp] at h
          cases hn : installDependencies env.npmStderr <;> simp [hn] at h ⊢

/-- C1: `forceUpdate()` runs download, backup, install, dependency-install,
post-actions in that fixed order (the structure of the embedded `forceUpdate`)
and aborts at the first failing stage; consequently a failing download leaves
the live application directory and any prior backup unchanged, and a failing
backup leaves the live application directory unchanged. -/
theorem forceUpdate_failure_frames (cfg : UpdateConfig) (env : PipelineEnv) (s : FsState) :
    (env.cloneResult.isOk = false →
      (forceUpdate cfg env s).success = false ∧
      (forceUpdate cfg env s).fs.appDir = s.appDir ∧
      (forceUpdate cfg env s).fs.backupDir = s.backupDir) ∧
    (env.backupCopyFails = true →
      (forceUpdate cfg env s).success = false ∧
      (forceUpdate cfg env s).fs.appDir = s.appDir) := by
  rcases hcl : env.cloneResult with e | cloned
  · refine ⟨fun _ => ?_, fun _ => ?_⟩ <;> simp [forceUpdate, hcl]
  · refine ⟨fun hko => ?_, fun hb => ?_⟩
    · simp [Except.isOk, Except.toBool, hcl] at hko
    · simp [forceUpdate, hcl, hb]

/-- Witness for C1: a concrete run whose clone fails, leaving the live
directory and the prior backup as they were. -/
theorem forceUpdate_failure_frames_witness :
    (forceUpdate ⟨none, none, false⟩
        ⟨.error "fatal: repository not found", false, [], []⟩
        ⟨[("app.js", "v1")], [("app.js", "v0")], []⟩).success = false ∧
    (forceUpdate ⟨none, none, false⟩
        ⟨.error "fatal: repository not found", false, [], []⟩
        ⟨[("app.js", "v1")], [("app.js", "v0")], []⟩).fs.appDir = [("app.js", "v1")] ∧
    (forceUpdate ⟨none, none, false⟩
        ⟨.error "fatal: repository not found", false, [], []⟩
        ⟨[("app.js", "v1")], [("app.js", "v0")], []⟩).fs.backupDir = [("app.js", "v0")] :=
  (forceUpdate_failure_frames ⟨none, none, false⟩
    ⟨.error "fatal: repository not found", false, [], []⟩
    ⟨[("app.js", "v1")], [("app.js", "v0")], []⟩).1 rfl

/-- C5: with `ignoreFiles = ["config.json"]`, a successful `forceUpdate()` run
leaves a pre-existing `config.json` in the live directory with its original
content, copies every other file of the cloned update over the live directory,
and live files with no counterpart in the update survive. -/
theorem forceUpdate_preserves_ignored_config (cfg : UpdateConfig) (env : PipelineEnv)
    (s : FsState) (cloned : Dir)
    (hig : cfg.ignoreFiles = some ["config.json"])
    (hcl : env.cloneResult = .ok cloned)
    (hsucc : (forceUpdate cfg env s).success = true) :
    lookupPath (forceUpdate cfg env s).fs.appDir "config.json" =
      lookupPath s.appDir "config.json" ∧
    (∀ p c, p ≠ "config.json" → lookupPath cloned p = some c →
      lookupPath (forceUpdate cfg env s).fs.appDir p = some c) ∧
    (∀ p, lookupPath cloned p = none →
      lookupPath (forceUpdate cfg env s).fs.appDir p = lookupPath s.appDir p) := by
  by_cases hb : env.backupCopyFails
  · simp [forceUpdate, hcl, hb] at hsucc
  · by_cases hc : hasPath cloned "config.json"
    · have hfu : (forceUpdate cfg env s).fs.appDir =
          copyOver (removePath cloned "config.json") s.appDir := by
        simp only [forceUpdate, hcl, hb, hig, purge, hc, if_true, if_false,
          Bool.false_eq_true]
        cases hnpm : installDependencies env.npmStderr <;> simp [hnpm, purge, hc]
      rw [hfu]
      refine ⟨?_, ?_, ?_⟩
      · rw [lookupPath_copyOver, lookupPath_removePath]
        simp
      · intro p c hp hcp
        rw [lookupPath_copyOver, lookupPath_removePath]
        simp [hp, hcp]
      · intro p hnone
        rw [lookupPath_copyOver, lookupPath_removePath]
        by_cases hpc : p = "config.json" <;> simp [hpc, hnone]
    · simp [forceUpdate, hcl, hb, hig, purge, hc] at hsucc

/-- Witness for C5: a concrete successful run in which the live `config.json`
keeps its original content. -/
theorem forceUpdate_preserves_ignored_config_witness :
    lookupPath (forceUpdate ⟨some ["config.json"], none, false⟩
        ⟨.ok [("config.json", "new-cfg"), ("app.js", "v2")], false, [], []⟩
        ⟨[("config.json", "orig"), ("local.txt", "keep")], [], []⟩).fs.appDir
      "config.json" =
    lookupPath [("config.json", "orig"), ("local.txt", "keep")] "config.json" :=
  (forceUpdate_preserves_ignored_config
    ⟨some ["config.json"], none, false⟩
    ⟨.ok [("config.json", "new-cfg"), ("app.js", "v2")], false, [], []⟩
    ⟨[("config.json", "orig"), ("local.txt", "keep")], [], []⟩
    [("config.json", "new-cfg"), ("app.js", "v2")]
    rfl rfl (by decide)).1

/-- C6: a stderr chunk of the dependency install containing "error"
case-insensitively makes the stage reject and `forceUpdate()` return `false`;
stderr output with no such substring (e.g. only warnings) never rejects the
stage. -/
theorem npm_stderr_error_heuristic (cfg : UpdateConfig) (env : PipelineEnv) (s : FsState) :
    ((∃ d ∈ env.npmStderr, npmChunkIsError d = true) →
      (installDependencies env.npmStderr).isSome = true ∧
      (forceUpdate cfg env s).success = false) ∧
    ((∀ d ∈ env.npmStderr, npmChunkIsError d = false) →
      installDependencies env.npmStderr = none) ∧
    npmChunkIsError "npm WARN deprecated - this is only a warning" = false ∧
    npmChunkIsError "npm ERR! code 1 - an Error occurred" = true := by
  refine ⟨fun h => ?_, fun h => ?_, by decide, by decide⟩
  · obtain ⟨d, hd, he⟩ := h
    have hsome : (installDependencies env.npmStderr).isSome = true := by
      unfold installDependencies
      cases hf : env.npmStderr.find? npmChunkIsError with
      | some x => rfl
      | none =>
        rw [List.find?_eq_none] at hf
        exact absurd he (by simpa using hf d hd)
    refine ⟨hsome, ?_⟩
    cases hs : (forceUpdate cfg env s).success with
    | false => rfl
    | true =>
      have := forceUpdate_success_npm cfg env s hs
      rw [this] at hsome
      exact absurd hsome (by simp)
  · unfold installDependencies
    rw [List.find?_eq_none]
    intro x hx
    simp [h x hx]

/-- Witness for C6: a concrete fatal stderr chunk fails the run; a
warnings-only stream resolves the stage. -/
theorem npm_stderr_error_heuristic_witness :
    (installDependencies ["npm ERR! code 1 - an Error occurred"]).isSome = true ∧
    (forceUpdate ⟨none, none, false⟩
        ⟨.ok [("app.js", "v2")], false, [], ["npm ERR! code 1 - an Error occurred"]⟩
        ⟨[("app.js", "v1")], [], []⟩).success = false ∧
    installDependencies ["npm WARN deprecated - this is only a warning"] = none :=
  ⟨((npm_stderr_error_heuristic ⟨none, none, false⟩
      ⟨.ok [("app.js", "v2")], false, [], ["npm ERR! code 1 - an Error occurred"]⟩
      ⟨[("app.js", "v1")], [], []⟩).1
      ⟨"npm ERR! code 1 - an Error occurred", by decide, by decide⟩).1,
   ((npm_stderr_error_heuristic ⟨none, none, false⟩
      ⟨.ok [("app.js", "v2")], false, [], ["npm ERR! code 1 - an Error occurred"]⟩
      ⟨[("app.js", "v1")], [], []⟩).1
      ⟨"npm ERR! code 1 - an Error occurred", by decide, by decide⟩).2,
   (npm_stderr_error_heuristic ⟨none, none, false⟩
      ⟨.ok [("app.js", "v2")], false, [], ["npm WARN deprecated - this is only a warning"]⟩
      ⟨[("app.js", "v1")], [], []⟩).2.1
      (by intro d hd; simp at hd; subst hd; decide)⟩

/-- Evaluation of the polling loop when the release lookup succeeds with
`tag` and delivers before iteration `k`: the loop keeps polling while the
gate is closed and returns the resolved tag at the first iteration after
delivery. -/
theorem autoUpdateLoop_ok_eval (br tag : String) (k : Nat) :
    ∀ fuel i, autoUpdateLoop ⟨br, false⟩ (.ok tag) k fuel i =
      if 0 < fuel ∧ k < i + fuel then some tag else none := by
  intro fuel
  induction fuel with
  | zero => intro i; simp [autoUpdateLoop]
  | succ n ih =>
    intro i
    by_cases h : k ≤ i
    · simp only [autoUpdateLoop, stateAt, setBranchToReleaseTag, if_pos h]
      have hcond : 0 < n + 1 ∧ k < i + (n + 1) := ⟨Nat.succ_pos n, by omega⟩
      rw [if_pos hcond]
      simp
    · simp only [autoUpdateLoop, stateAt, setBranchToReleaseTag, if_neg h,
        Bool.false_eq_true, if_false]
      rw [ih (i + 1)]
      by_cases h2 : 0 < n ∧ k < i + 1 + n
      · have hcond : 0 < n + 1 ∧ k < i + (n + 1) := by omega
        rw [if_pos h2, if_pos hcond]
      · have hcond : ¬(0 < n + 1 ∧ k < i + (n + 1)) := by omega
        rw [if_neg h2, if_neg hcond]

/-- C7: with `fromReleases = true` the constructor clears the gate, the
`autoUpdate()` polling loop performs no version comparison while the
release-tag task is still unresolved (`none` whenever the task delivers only
at or after the polled horizon), and once the task succeeds the branch used
for the remote version lookup and the clone is the resolved release tag, never
the configured or default branch. -/
theorem autoUpdate_gates_on_release_tag (br tag : String) (k fuel : Nat) :
    (∀ (c : Config) (n : String) (w : ModuleState), c.fromReleases = true →
      (construct (some c) n).1 = .ok w → w.ready = false) ∧
    (fuel ≤ k → autoUpdateLoop ⟨br, false⟩ (.ok tag) k fuel 0 = none) ∧
    (k < fuel → autoUpdateLoop ⟨br, false⟩ (.ok tag) k fuel 0 = some tag) ∧
    (∀ r, autoUpdateLoop ⟨br, false⟩ (.ok tag) k fuel 0 = some r → r = tag) := by
  refine ⟨?_, ?_, ?_, ?_⟩
  · intro c n w hfr hok
    unfold construct at hok
    rcases c with ⟨repo, _, _, _, _, temp, _, _, _⟩
    cases repo <;> cases temp <;> simp_all
    split at hok
    · exact absurd hok (by simp)
    · cases hok
      simp [hfr]
  · intro h
    rw [autoUpdateLoop_ok_eval]
    have hcond : ¬(0 < fuel ∧ k < 0 + fuel) := by omega
    rw [if_neg hcond]
  · intro h
    rw [autoUpdateLoop_ok_eval]
    have hcond : 0 < fuel ∧ k < 0 + fuel := by omega
    rw [if_pos hcond]
  · intro r hr
    rw [autoUpdateLoop_ok_eval] at hr
    by_cases h : 0 < fuel ∧ k < 0 + fuel
    · rw [if_pos h] at hr
      exact (Option.some.injEq _ _ ▸ hr).symm ▸ rfl
    · rw [if_neg h] at hr
      exact absurd hr (by simp)

/-- Witness for C7: resolution delivering at iteration 2 of a 5-iteration
horizon makes the comparison use the release tag `v2.0.0`, and a 2-iteration
horizon is still polling. -/
theorem autoUpdate_gates_on_release_tag_witness :
    autoUpdateLoop ⟨"master", false⟩ (.ok "v2.0.0") 2 5 0 = some "v2.0.0" ∧
    autoUpdateLoop ⟨"master", false⟩ (.ok "v2.0.0") 2 2 0 = none :=
  ⟨(autoUpdate_gates_on_release_tag "master" "v2.0.0" 2 5).2.2.1 (by decide),
   (autoUpdate_gates_on_release_tag "master" "v2.0.0" 2 2).2.1 (by decide)⟩

/-- C8: constructing with a configuration missing `repository` or
`tempLocation` throws the configuration error synchronously, with no network
request and no filesystem access performed. -/
theorem construct_missing_config_error (c : Config) (n : String)
    (h : c.repository = none ∨ c.tempLocation = none) :
    (construct (some c) n).1.isOk = false ∧ (construct (some c) n).2 = [] := by
  rcases c with ⟨repo, _, _, _, _, temp, _, _, _⟩
  rcases h with h | h
  · simp only at h
    subst h
    simp [construct, Except.isOk, Except.toBool]
  · simp only at h
    subst h
    cases repo <;> simp [construct, Except.isOk, Except.toBool]

/-- Witness for C8: a configuration with a repository but no `tempLocation`
is rejected with no effects. -/
theorem construct_missing_config_error_witness :
    (construct (some ⟨some "https://github.com/chegele/App", none, false, none,
        false, none, none, none, false⟩) "host-app").1.isOk = false ∧
    (construct (some ⟨some "https://github.com/chegele/App", none, false, none,
        false, none, none, none, false⟩) "host-app").2 = [] :=
  construct_missing_config_error
    ⟨some "https://github.com/chegele/App", none, false, none,
      false, none, none, none, false⟩ "host-app" (Or.inr rfl)

/-- The polling loop never observes an open gate when the release lookup
failed: the failing `setBranchToReleaseTag` leaves the state unchanged. -/
theorem autoUpdateLoop_failed_none (br : String) (res : ReleaseResult)
    (hfail : res.failed = true) :
    ∀ k fuel i, autoUpdateLoop ⟨br, false⟩ res k fuel i = none := by
  have hstate : (setBranchToReleaseTag res ⟨br, false⟩).1 = ⟨br, false⟩ := by
    cases res with
    | ok tag => simp [ReleaseResult.failed] at hfail
    | nonGitHubHost => rfl
    | httpFailure e => rfl
  intro k fuel
  induction fuel with
  | zero => intro i; rfl
  | succ m ih =>
    intro i
    simp only [autoUpdateLoop, stateAt]
    by_cases h : k ≤ i
    · rw [if_pos h, hstate]
      simpa using ih (i + 1)
    · rw [if_neg h]
      simpa using ih (i + 1)

/-- C10: when the release-tag resolution task fails (non-GitHub host, bad
status or unparseable body), the `ready` flag is never set back to `true`:
the failing `setBranchToReleaseTag` leaves the gate closed, every poll
iteration of `autoUpdate()` observes `ready = false`, and the loop never
reaches the version comparison for any number of iterations. -/
theorem autoUpdate_stuck_on_failed_resolution (br : String) (res : ReleaseResult)
    (hfail : res.failed = true) :
    (setBranchToReleaseTag res ⟨br, false⟩).1.ready = false ∧
    (∀ k i, (stateAt ⟨br, false⟩ res k i).ready = false) ∧
    (∀ k fuel i, autoUpdateLoop ⟨br, false⟩ res k fuel i = none) := by
  have hstate : (setBranchToReleaseTag res ⟨br, false⟩).1 = ⟨br, false⟩ := by
    cases res with
    | ok tag => simp [ReleaseResult.failed] at hfail
    | nonGitHubHost => rfl
    | httpFailure e => rfl
  refine ⟨by rw [hstate], fun k i => ?_, autoUpdateLoop_failed_none br res hfail⟩
  unfold stateAt
  by_cases h : k ≤ i
  · rw [if_pos h, hstate]
  · rw [if_neg h]

/-- Witness for C10: a failed lookup against a non-GitHub host leaves
`autoUpdate()` polling forever (here: still polling after 9 iterations from
any delivery schedule). -/
theorem autoUpdate_stuck_on_failed_resolution_witness :
    autoUpdateLoop ⟨"master", false⟩ ReleaseResult.nonGitHubHost 0 9 0 = none :=
  (autoUpdate_stuck_on_failed_resolution "master" ReleaseResult.nonGitHubHost
    (by decide)).2.2 0 9 0

end AutoGitUpdate
